import Mathlib

/-!
Verification development for the Problemsolver payment ingestion and
settlement service.

The Python source is shallowly embedded as follows.

* Python Decimal values (fixed-point monetary amounts, precision 36 with
  18 fractional digits in the schema) are embedded as rationals.  The code
  raises the Decimal context precision to at least 50 significant digits
  before every arithmetic step, which makes Decimal arithmetic exact on
  all values representable in the schema, so rational arithmetic is a
  faithful model.  Decimal quantize with ROUND_DOWN is truncation toward
  zero at a fixed number of fractional digits.
* The relational store is a record of tables (lists of rows).  Rows keep
  the column names of app/db/models.py.  Server-generated uuid primary
  keys are modelled by a counter held in the store.
* Unique-index checks are modelled by the corresponding search of the
  table, which is what the index enforces.
* Async functions are pure state-transformers; a transaction that aborts
  is modelled by runTxn, which discards the tentative state.
* JSON documents are modelled by the inductive JVal; the Python str()
  rendering of such a document and the json.dumps rendering are both
  defined on JVal.
* The HMAC primitive and the outbound HTTP POST are parameters of the
  functions that use them (the spec treats both as external collaborators).
-/

namespace Problemsolver

/-- ASCII uppercasing, embedding the Python str.upper() calls of the source
(all inputs of interest are ASCII network and coin labels). -/
def strUpper (s : String) : String := ⟨s.data.map Char.toUpper⟩

/-- Python dict get with a default for the falsy cases used in the source:
a missing key or an empty string both fall back to the default. -/
def strOrDefault (s : Option String) (d : String) : String :=
  match s with
  | none => d
  | some c => if c = "" then d else c

/-- Truncation of a rational toward zero, the integer part used by Decimal
quantize with rounding=ROUND_DOWN. -/
def ratTruncZ (q : ℚ) : ℤ :=
  if 0 ≤ q then q.num / (q.den : ℤ) else -((-q).num / ((-q).den : ℤ))

/-- Decimal.quantize(10^(-prec), rounding=ROUND_DOWN): round q toward zero
to prec fractional digits. -/
def quantizeDown (q : ℚ) (prec : ℕ) : ℚ :=
  ((ratTruncZ (q * 10 ^ prec) : ℤ) : ℚ) / 10 ^ prec

/-! app/poller/amount_diff.py -/

/-- NETWORK_PRECISIONS dict of amount_diff.py (network label, uppercased,
to decimal places). -/
def NETWORK_PRECISIONS (key : String) : Option ℕ :=
  if key = "ERC20" then some 6
  else if key = "ETH" then some 6
  else if key = "TRC20" then some 6
  else if key = "TRON" then some 6
  else if key = "BEP20" then some 18
  else if key = "BSC" then some 18
  else none

def DEFAULT_PRECISION : ℕ := 6

/-- network_precision of amount_diff.py: a missing or empty network label is
falsy in Python and takes the default. -/
def network_precision (network : Option String) : ℕ :=
  match network with
  | none => DEFAULT_PRECISION
  | some s => if s = "" then DEFAULT_PRECISION
              else (NETWORK_PRECISIONS (strUpper s)).getD DEFAULT_PRECISION

/-- invoice_index_from_uuid of amount_diff.py.  The 128-bit uuid is embedded
as its integer value. -/
def invoice_index_from_uuid (invoice_id : ℕ) (k : ℤ) : ℕ :=
  if k ≤ 0 then 0 else invoice_id % 10 ^ k.toNat

/-- compute_delta of amount_diff.py: idx times 10^(-k). -/
def compute_delta (invoice_id : ℕ) (k : ℤ) : ℚ :=
  (invoice_index_from_uuid invoice_id k : ℚ) * (10 : ℚ) ^ (-k)

/-- adjusted_amount_for_invoice of amount_diff.py: base plus delta, quantized
down to the network precision. -/
def adjusted_amount_for_invoice (base_amount : ℚ) (invoice_id : ℕ)
    (network : Option String) (k : ℤ) : ℚ :=
  quantizeDown (base_amount + compute_delta invoice_id k) (network_precision network)

/-! app/poller/config.py -/

/-- DEFAULT_NETWORK_CONFIRMATIONS dict of config.py. -/
def DEFAULT_NETWORK_CONFIRMATIONS (key : String) : Option ℕ :=
  if key = "ETH" then some 12
  else if key = "ERC20" then some 12
  else if key = "BEP20" then some 3
  else if key = "TRC20" then some 20
  else if key = "TRON" then some 20
  else none

/-- settings.DEFAULT_CONFIRMATIONS default. -/
def FALLBACK_REQUIRED_CONFIRMATIONS : ℕ := 2

/-- required_confirmations_for of config.py. -/
def required_confirmations_for (network : Option String) : ℕ :=
  match network with
  | none => FALLBACK_REQUIRED_CONFIRMATIONS
  | some s => if s = "" then FALLBACK_REQUIRED_CONFIRMATIONS
              else (DEFAULT_NETWORK_CONFIRMATIONS (strUpper s)).getD
                FALLBACK_REQUIRED_CONFIRMATIONS

/-- settings.AMOUNT_DIFF_K default, read by processor.py and invoices.py. -/
def AMOUNT_DIFF_K : ℤ := 3

/-! JSON documents -/

/-- A JSON value, the shape of the payload, headers and details columns. -/
inductive JVal where
  | jnull
  | jbool (b : Bool)
  | jnum (n : ℤ)
  | jstr (s : String)
  | jarr (xs : List JVal)
  | jobj (fields : List (String × JVal))
  deriving Repr

/-- Python str.join over a list of strings. -/
def joinSep (sep : String) : List String → String
  | [] => ""
  | [x] => x
  | x :: y :: xs => x ++ sep ++ joinSep sep (y :: xs)

mutual

/-- Python str() of a dict parsed from JSON, as worker.py applies to
row.payload: single-quoted strings, capitalized True, False and None
(string-escape corner cases do not occur in the payloads at issue). -/
def pyStr : JVal → String
  | .jnull => "None"
  | .jbool b => if b then "True" else "False"
  | .jnum n => toString n
  | .jstr s => "\x27" ++ s ++ "\x27"
  | .jarr xs => "[" ++ joinSep ", " (pyStrList xs) ++ "]"
  | .jobj fs => "\x7b" ++ joinSep ", " (pyStrFields fs) ++ "\x7d"

def pyStrList : List JVal → List String
  | [] => []
  | x :: xs => pyStr x :: pyStrList xs

def pyStrFields : List (String × JVal) → List String
  | [] => []
  | (k, v) :: fs => ("\x27" ++ k ++ "\x27: " ++ pyStr v) :: pyStrFields fs

end

mutual

/-- Modelled from the spec: the webhook body the dispatcher is specified to
send is JSON(payload), i.e. the json.dumps rendering with double-quoted
strings and lowercase true, false and null.  The source never computes
this; it is defined here only to compare with pyStr. -/
def json_dumps : JVal → String
  | .jnull => "null"
  | .jbool b => if b then "true" else "false"
  | .jnum n => toString n
  | .jstr s => "\"" ++ s ++ "\""
  | .jarr xs => "[" ++ joinSep ", " (jsonList xs) ++ "]"
  | .jobj fs => "\x7b" ++ joinSep ", " (jsonFields fs) ++ "\x7d"

def jsonList : List JVal → List String
  | [] => []
  | x :: xs => json_dumps x :: jsonList xs

def jsonFields : List (String × JVal) → List String
  | [] => []
  | (k, v) :: fs => ("\"" ++ k ++ "\": " ++ json_dumps v) :: jsonFields fs

end

/-! Data model, app/db/models.py (the columns the claims touch). -/

structure Invoice where
  id : ℕ
  merchant_id : ℕ
  publish_amount : ℚ
  currency : String := "USDT"
  network : Option String := none
  address : Option String := none
  address_tag : Option String := none
  status : String := "pending"
  deriving Repr, DecidableEq

structure DepositRaw where
  id : ℕ
  tx_id : String
  coin : Option String := none
  network : Option String := none
  amount : ℚ
  status : ℤ := 0
  address : Option String := none
  address_tag : Option String := none
  insert_time_ms : ℕ := 0
  complete_time_ms : Option ℕ := none
  /-- the confirmTimes field of the stored raw JSON document -/
  confirmTimes : Option ℕ := none
  processed : Bool := false
  deriving Repr, DecidableEq

structure Payment where
  id : ℕ
  invoice_id : ℕ
  deposit_raw_id : ℕ
  tx_id : String
  amount : ℚ
  network : Option String
  address : Option String
  address_tag : Option String
  status : String
  /-- metadata.used_amount_diff -/
  used_amount_diff : Bool
  deriving Repr, DecidableEq

structure LedgerEntry where
  merchant_id : ℕ
  change_amount : ℚ
  currency : String
  entry_type : String
  reference_id : ℕ
  /-- metadata.invoice_id -/
  meta_invoice_id : ℕ
  /-- metadata.tx_id -/
  meta_tx_id : String
  /-- metadata.confirmations -/
  meta_confirmations : ℕ
  deriving Repr, DecidableEq

/-- The payload dict enqueued by _credit_invoice of processor.py. -/
structure WebhookPayload where
  invoiceId : ℕ
  merchantId : ℕ
  status : String
  amount : ℚ
  network : Option String
  txHash : String
  confirmations : ℕ
  confirmedAt : Option ℕ
  used_amount_diff : Bool
  deriving Repr, DecidableEq

structure WebhookQueue where
  merchant_id : ℕ
  payload : WebhookPayload
  headers : List (String × String)
  attempts : ℕ := 0
  last_error : Option String := none
  status : String := "pending"
  idempotency_key : Option String := none
  deriving Repr, DecidableEq

structure AuditLog where
  actor : Option String
  action : String
  details : JVal
  deriving Repr

structure SystemEvent where
  source : String
  event_type : String
  payload : JVal
  deriving Repr

/-- The relational store: one list per table, plus a counter standing for
the server-side uuid generator and the three Prometheus counters of the
processor. -/
structure DB where
  invoices : List Invoice := []
  payments : List Payment := []
  ledger_entries : List LedgerEntry := []
  webhook_queue : List WebhookQueue := []
  audit_logs : List AuditLog := []
  system_events : List SystemEvent := []
  deposit_raw : List DepositRaw := []
  next_uuid : ℕ := 0
  met_deposits_processed : ℕ := 0
  met_deposits_errors : ℕ := 0
  met_collisions : ℕ := 0

/-- select Invoice where id = x (scalar_one over the primary key). -/
def lookupInvoice (db : DB) (x : ℕ) : Option Invoice :=
  db.invoices.find? (fun i => i.id == x)

/-- Setting the status of the invoice row with primary key x. -/
def updateInvoiceStatus (db : DB) (x : ℕ) (st : String) : DB :=
  { db with invoices :=
      db.invoices.map (fun i => if i.id = x then { i with status := st } else i) }

/-- A transaction begun with session.begin(): on success the produced state
commits, on an exception the state rolls back unchanged (service.py wraps
each ingest-and-match unit this way). -/
def runTxn (db : DB) (f : DB → Except String DB) : DB :=
  match f db with
  | .ok db2 => db2
  | .error _ => db

/-! app/poller/processor.py -/

/-- A deposit record of the exchange JSON, as consumed by ingest_deposit.
The numeric fields are already converted (the source applies Decimal(str())
and int()). -/
structure BinanceDeposit where
  txId : Option String := none
  coin : Option String := none
  network : Option String := none
  amount : ℚ := 0
  status : Option ℤ := none
  address : Option String := none
  addressTag : Option String := none
  insertTime : Option ℕ := none
  completeTime : Option ℕ := none
  confirmTimes : Option ℕ := none
  deriving Repr, DecidableEq

/-- The DepositRaw row ingest_deposit builds from a deposit record (the
primary key is the next server-generated uuid; a falsy completeTime is
stored as null). -/
def ingested_record (db : DB) (deposit : BinanceDeposit) (txid : String) :
    DepositRaw :=
  { id := db.next_uuid
    tx_id := txid
    coin := deposit.coin
    network := deposit.network
    amount := deposit.amount
    status := (deposit.status.getD 0)
    address := deposit.address
    address_tag := deposit.addressTag
    insert_time_ms := deposit.insertTime.getD 0
    complete_time_ms :=
      match deposit.completeTime with
      | none => none
      | some t => if t = 0 then none else some t
    confirmTimes := deposit.confirmTimes
    processed := false }

/-- ingest_deposit of processor.py: idempotent insert of deposit_raw keyed
by the unique tx_id index; a missing (or empty, hence falsy) txId raises
ValueError.  The unique-violation path of the source (flush fails, fetch
existing) is modelled by consulting the index first, which is the state
transition the unique index enforces. -/
def ingest_deposit (db : DB) (deposit : BinanceDeposit) :
    Except String (DepositRaw × Bool × DB) :=
  match deposit.txId with
  | none => .error "deposit missing txId"
  | some txid =>
    if txid = "" then .error "deposit missing txId"
    else
      match db.deposit_raw.find? (fun r => r.tx_id == txid) with
      | some existing => .ok (existing, false, db)
      | none =>
        .ok (ingested_record db deposit txid, true,
          { db with deposit_raw := db.deposit_raw ++ [ingested_record db deposit txid],
                    next_uuid := db.next_uuid + 1 })

/-- The candidate query of try_match_and_credit: pending invoices at the
deposit address and network, the address_tag clause added only when the
deposit carries a truthy tag, capped at 50 rows. -/
def matcher_candidates (db : DB) (dep : DepositRaw) : List Invoice :=
  (db.invoices.filter (fun i =>
      decide (i.address = dep.address) && decide (i.network = dep.network) &&
      decide (i.status = "pending") &&
      (match dep.address_tag with
       | none => true
       | some t => if t = "" then true else decide (i.address_tag = some t)))).take 50

/-- The Payment row _credit_invoice inserts.  The primary key (revealed to
the ledger row by session.flush) is the next server-generated uuid. -/
def credit_payment (db : DB) (invoice_row : Invoice) (dep : DepositRaw)
    (amount : ℚ) (used_amount_diff : Bool) : Payment :=
  { id := db.next_uuid
    invoice_id := invoice_row.id
    deposit_raw_id := dep.id
    tx_id := dep.tx_id
    amount := amount
    network := dep.network
    address := dep.address
    address_tag := dep.address_tag
    status := "settled"
    used_amount_diff := used_amount_diff }

/-- The LedgerEntry row _credit_invoice inserts, referencing the payment. -/
def credit_ledger (db : DB) (invoice_row : Invoice) (dep : DepositRaw)
    (amount : ℚ) (confirmations : ℕ) : LedgerEntry :=
  { merchant_id := invoice_row.merchant_id
    change_amount := amount
    currency := "USDT"
    entry_type := "credit_invoice"
    reference_id := db.next_uuid
    meta_invoice_id := invoice_row.id
    meta_tx_id := dep.tx_id
    meta_confirmations := confirmations }

/-- The WebhookQueue row _credit_invoice enqueues: the paid payload with an
EMPTY headers document. -/
def credit_webhook_row (invoice_row : Invoice) (dep : DepositRaw)
    (amount : ℚ) (confirmations : ℕ) (used_amount_diff : Bool) : WebhookQueue :=
  { merchant_id := invoice_row.merchant_id
    payload :=
      { invoiceId := invoice_row.id
        merchantId := invoice_row.merchant_id
        status := "paid"
        amount := amount
        network := dep.network
        txHash := dep.tx_id
        confirmations := confirmations
        confirmedAt := dep.complete_time_ms
        used_amount_diff := used_amount_diff }
    headers := [] }

/-- _credit_invoice of processor.py: the five writes of the crediting step
(Payment insert, LedgerEntry insert, invoice status to paid, deposit_raw
processed to true, WebhookQueue insert). -/
def _credit_invoice (db : DB) (invoice_row : Invoice) (dep : DepositRaw)
    (amount : ℚ) (confirmations : ℕ) (used_amount_diff : Bool) :
    DB × DepositRaw :=
  ((updateInvoiceStatus
      { db with
          payments := db.payments ++ [credit_payment db invoice_row dep amount used_amount_diff],
          ledger_entries := db.ledger_entries
            ++ [credit_ledger db invoice_row dep amount confirmations],
          webhook_queue := db.webhook_queue
            ++ [credit_webhook_row invoice_row dep amount confirmations used_amount_diff],
          next_uuid := db.next_uuid + 1 }
      invoice_row.id "paid"),
   { dep with processed := true })

/-- The first (exact-amount) pass of try_match_and_credit: walk the
candidates, re-read each row under the row lock, skip rows no longer
pending, credit on the first exact amount match.  The none branch of the
re-read is unreachable (the candidate came from the same snapshot), and
returns no match as the benign total completion. -/
def exact_match_pass (db : DB) (dep : DepositRaw) (amount : ℚ)
    (confirmations : ℕ) : List Invoice → Option (DB × DepositRaw)
  | [] => none
  | c :: rest =>
    match lookupInvoice db c.id with
    | none => exact_match_pass db dep amount confirmations rest
    | some invoice_row =>
      if invoice_row.status ≠ "pending" then
        exact_match_pass db dep amount confirmations rest
      else if invoice_row.publish_amount = amount then
        some (_credit_invoice db invoice_row dep amount confirmations false)
      else
        exact_match_pass db dep amount confirmations rest

/-- The amount-differentiation fallback set M of try_match_and_credit:
candidates whose adjusted amount equals the deposit amount. -/
def amount_diff_matches (db : DB) (dep : DepositRaw) : List Invoice :=
  (matcher_candidates db dep).filter (fun c =>
    decide (adjusted_amount_for_invoice c.publish_amount c.id c.network AMOUNT_DIFF_K
            = dep.amount))

/-- The AuditLog row written on an amount-diff collision. -/
def collision_audit (dep : DepositRaw) (ms : List Invoice) : AuditLog :=
  { actor := some "poller"
    action := "collision_detected"
    details := .jobj [("tx", .jstr dep.tx_id),
                      ("matches", .jarr (ms.map (fun m => .jstr (toString m.id))))] }

/-- The SystemEvent row written on an amount-diff collision. -/
def collision_event (dep : DepositRaw) (ms : List Invoice) : SystemEvent :=
  { source := "poller"
    event_type := "collision"
    payload := .jobj [("tx", .jstr dep.tx_id),
                      ("matches", .jarr (ms.map (fun m => .jstr (toString m.id))))] }

/-- The three-way dispatch of try_match_and_credit on the amount-diff match
set (processor.py lines 131 to 158): a singleton is re-read under the row
lock, re-verified pending and credited with used_amount_diff true; two or
more members are a collision (each member set to pending_manual_resolution,
one AuditLog, one SystemEvent, collisions counter incremented, deposit left
unprocessed); no member means no action.  The unreachable none branch of
the re-read is the benign no-action completion (scalar_one cannot fail: the
member came from the same snapshot). -/
def amount_diff_dispatch (db : DB) (dep : DepositRaw) (amount : ℚ)
    (confirmations : ℕ) : List Invoice → Bool × DB × DepositRaw
  | [m] =>
    (match lookupInvoice db m.id with
     | none => (false, db, dep)
     | some invoice_row =>
       if invoice_row.status ≠ "pending" then (false, db, dep)
       else
         let r := _credit_invoice db invoice_row dep amount confirmations true
         (true,
          { r.1 with met_deposits_processed := r.1.met_deposits_processed + 1 },
          r.2))
  | [] => (false, db, dep)
  | m1 :: m2 :: rest =>
    let ms := m1 :: m2 :: rest
    let db1 := ms.foldl
      (fun acc i => updateInvoiceStatus acc i.id "pending_manual_resolution") db
    (false,
     { db1 with audit_logs := db1.audit_logs ++ [collision_audit dep ms],
                system_events := db1.system_events ++ [collision_event dep ms],
                met_collisions := db1.met_collisions + 1 },
     dep)

/-- What try_match_and_credit does with the result of the exact pass: a
credit ends the call successfully with the processed counter incremented;
otherwise the amount-diff fallback dispatches on the match set. -/
def after_exact_pass (db : DB) (dep : DepositRaw) (amount : ℚ)
    (confirmations : ℕ) : Option (DB × DepositRaw) → Bool × DB × DepositRaw
  | some (db2, dep2) =>
    (true, { db2 with met_deposits_processed := db2.met_deposits_processed + 1 },
     dep2)
  | none =>
    amount_diff_dispatch db dep amount confirmations (amount_diff_matches db dep)

/-- try_match_and_credit of processor.py.  Returns (credited, store,
deposit row).  The gate ignores non-USDT coins, then requires exchange
status 1 and enough confirmations; then the exact pass, then the
amount-diff fallback with its three cases. -/
def try_match_and_credit (db : DB) (dep : DepositRaw) : Bool × DB × DepositRaw :=
  if strUpper (dep.coin.getD "") ≠ "USDT" then (false, db, dep)
  else
    let confirmations := dep.confirmTimes.getD 0
    let required := required_confirmations_for dep.network
    if dep.status ≠ 1 ∨ confirmations < required then (false, db, dep)
    else
      let candidates := matcher_candidates db dep
      if candidates.isEmpty then (false, db, dep)
      else
        after_exact_pass db dep dep.amount confirmations
          (exact_match_pass db dep dep.amount confirmations candidates)

/-! app/api/invoices.py -/

def MAX_INVOICE_CREATION_ATTEMPTS : ℕ := 5

structure InvoiceCreateReq where
  merchant_id : ℕ
  base_amount : ℚ
  currency : Option String := none
  network : Option String := none
  address : Option String := none
  address_tag : Option String := none
  deriving Repr, DecidableEq

structure InvoiceResp where
  invoice_id : ℕ
  publish_amount : ℚ
  currency : String
  network : Option String
  address : Option String
  address_tag : Option String
  status : String
  deriving Repr, DecidableEq

structure HttpError where
  status_code : ℕ
  detail : String
  deriving Repr, DecidableEq

/-- The partial unique index ux_invoices_merchant_amount_address on
(merchant_id, publish_amount, address) where address is not null: true when
inserting inv would violate it. -/
def violates_unique (db : DB) (inv : Invoice) : Bool :=
  decide (inv.address ≠ none) &&
  db.invoices.any (fun i =>
    decide (i.merchant_id = inv.merchant_id) &&
    decide (i.publish_amount = inv.publish_amount) &&
    decide (i.address = inv.address) && decide (i.address ≠ none))

/-- The candidate invoice row of attempt number attempt in create_invoice:
uuid int (u0 + attempt) mod 2^128, publish_amount adjusted by
amount-differentiation. -/
def invoice_candidate (req : InvoiceCreateReq) (u0 attempt : ℕ) : Invoice :=
  let cand := (u0 + attempt) % 2 ^ 128
  { id := cand
    merchant_id := req.merchant_id
    publish_amount :=
      adjusted_amount_for_invoice req.base_amount cand req.network AMOUNT_DIFF_K
    currency := strOrDefault req.currency "USDT"
    network := req.network
    address := req.address
    address_tag := req.address_tag
    status := "pending" }

/-- The attempt loop of create_invoice: n attempts left, next attempt index
attempt; each colliding insert rolls back leaving the store unchanged. -/
def create_invoice_attempts (db : DB) (req : InvoiceCreateReq) (u0 : ℕ) :
    ℕ → ℕ → Option (Invoice × DB)
  | _, 0 => none
  | attempt, n + 1 =>
    let invoice := invoice_candidate req u0 attempt
    if violates_unique db invoice then create_invoice_attempts db req u0 (attempt + 1) n
    else some (invoice, { db with invoices := db.invoices ++ [invoice] })

/-- The placeholder invoice written after exhausting all attempts. -/
def manual_resolution_invoice (db : DB) (req : InvoiceCreateReq) : Invoice :=
  { id := db.next_uuid
    merchant_id := req.merchant_id
    publish_amount := req.base_amount
    currency := strOrDefault req.currency "USDT"
    network := req.network
    address := req.address
    address_tag := req.address_tag
    status := "pending_manual_resolution" }

/-- The AuditLog row written when invoice creation exhausts its attempts. -/
def collision_exhausted_audit (req : InvoiceCreateReq) : AuditLog :=
  { actor := some "invoice_service"
    action := "invoice_creation_collision_exhausted"
    details := .jobj [("merchant_id", .jstr (toString req.merchant_id)),
                      ("base_amount", .jstr (toString req.base_amount))] }

/-- The SystemEvent row written when invoice creation exhausts its attempts. -/
def collision_exhausted_event (req : InvoiceCreateReq) : SystemEvent :=
  { source := "invoice_service"
    event_type := "collision_exhausted"
    payload := .jobj [("merchant_id", .jstr (toString req.merchant_id)),
                      ("base_amount", .jstr (toString req.base_amount))] }

/-- create_invoice of invoices.py, for a drawn 128-bit base uuid u0.
On exhaustion the source opens a transaction, inserts the manual-resolution
invoice, one AuditLog and one SystemEvent, commits, and then raises
HTTPException(409) INSIDE the same try block; the blanket except Exception
catches that HTTPException, rolls back the (already committed) transaction,
and raises HTTPException(500).  The embedding reproduces this control flow:
the committed writes survive, the surfaced status code is 500.  When the
manual-resolution insert itself violates the unique index, the transaction
aborts with nothing persisted and the surfaced status code is 500. -/
def create_invoice (db : DB) (req : InvoiceCreateReq) (u0 : ℕ) :
    Except HttpError InvoiceResp × DB :=
  match create_invoice_attempts db req u0 0 MAX_INVOICE_CREATION_ATTEMPTS with
  | some (inv, db2) =>
    (.ok { invoice_id := inv.id
           publish_amount := inv.publish_amount
           currency := inv.currency
           network := inv.network
           address := inv.address
           address_tag := inv.address_tag
           status := inv.status }, db2)
  | none =>
    let failure_invoice := manual_resolution_invoice db req
    if violates_unique db failure_invoice then
      (.error { status_code := 500, detail := "invoice_creation_failed" }, db)
    else
      (.error { status_code := 500, detail := "invoice_creation_failed" },
       { db with invoices := db.invoices ++ [failure_invoice],
                 audit_logs := db.audit_logs ++ [collision_exhausted_audit req],
                 system_events := db.system_events ++ [collision_exhausted_event req],
                 next_uuid := db.next_uuid + 1 })

/-! app/webhooks/worker.py and app/utils/webhook_signing.py -/

/-- A webhook_queue row as the dispatcher reads it back: the payload is the
stored JSON document. -/
structure WebhookRow where
  id : ℕ
  payload : JVal
  headers : List (String × String)
  attempts : ℕ
  last_error : Option String
  status : String
  idempotency_key : Option String
  next_attempt_at : Option ℤ

def WEBHOOK_MAX_ATTEMPTS : ℕ := 10

def WEBHOOK_BACKOFF_BASE_SECONDS : ℕ := 1

/-- sign_webhook of webhook_signing.py, over an abstract HMAC-SHA256-hex
primitive: sha256= prefix on the mac of timestamp.payload. -/
def sign_webhook (hmacSha256Hex : String → String → String)
    (payload timestamp secret : String) : String :=
  "sha256=" ++ hmacSha256Hex secret (timestamp ++ "." ++ payload)

/-- Python dict .get on a headers document. -/
def headerGet (hs : List (String × String)) (k : String) : Option String :=
  (hs.find? (fun p => p.1 == k)).map (fun p => p.2)

/-- The request deliver_webhook of worker.py would POST: none when no
webhook url is configured in the row headers; otherwise the url, the body
str(row.payload), and the request headers with the signature computed over
that same body. -/
def webhook_request (hmacSha256Hex : String → String → String) (now : ℤ)
    (secret : String) (row : WebhookRow) :
    Option (String × String × List (String × String)) :=
  match (headerGet row.headers "x-ps-webhook-url").or
        (headerGet row.headers "webhook_url") with
  | none => none
  | some url =>
    let payload_bytes := pyStr row.payload
    let timestamp := toString now
    let signature := sign_webhook hmacSha256Hex payload_bytes timestamp secret
    let req_headers :=
      [("Content-Type", "application/json"),
       ("X-PS-Timestamp", timestamp),
       ("X-PS-Signature", signature)] ++
      (match row.idempotency_key with
       | some k => [("Idempotency-Key", k)]
       | none => [])
    some (url, payload_bytes, req_headers)

/-- The outcome of the POST: a response with a status code, or a transport
exception rendered as a string. -/
inductive HttpResult where
  | resp (status_code : ℕ)
  | exc (msg : String)

/-- deliver_webhook of worker.py, over an abstract POST. -/
def deliver_webhook (hmacSha256Hex : String → String → String)
    (post : String → String → List (String × String) → HttpResult)
    (now : ℤ) (secret : String) (row : WebhookRow) : Bool × Option String :=
  match webhook_request hmacSha256Hex now secret row with
  | none => (false, some "no_webhook_url")
  | some (url, body, req_headers) =>
    match post url body req_headers with
    | .resp code =>
      if 200 ≤ code ∧ code < 300 then (true, none)
      else (false, some ("status_" ++ toString code))
    | .exc msg => (false, some msg)

/-- The outcome handling of worker_loop (worker.py lines 93 to 116), applied
to one row and one delivery outcome.  maxAttempts and backoffBase stand for
the configured WEBHOOK_MAX_ATTEMPTS and WEBHOOK_BACKOFF_BASE_SECONDS.
Returns the updated row and the success and fail metric increments. -/
def worker_handle_outcome (maxAttempts backoffBase : ℕ) (now : ℤ)
    (row : WebhookRow) (outcome : Bool × Option String) :
    WebhookRow × ℕ × ℕ :=
  if outcome.1 then
    ({ row with status := "success", attempts := row.attempts + 1,
                last_error := none }, 1, 0)
  else
    let attempts := row.attempts + 1
    if maxAttempts ≤ attempts then
      ({ row with attempts := attempts, last_error := outcome.2,
                  status := "failed" }, 0, 1)
    else
      let backoff : ℕ := min 600 (backoffBase * 2 ^ (attempts - 1))
      ({ row with attempts := attempts, last_error := outcome.2,
                  next_attempt_at := some (now + backoff),
                  status := "pending" }, 0, 1)

/-- One failed-delivery round trip of the dispatcher on a row: deliver
fails with the given reason, the outcome handling updates the row. -/
def worker_retry_step (maxAttempts backoffBase : ℕ) (now : ℤ)
    (err : Option String) (row : WebhookRow) : WebhookRow :=
  (worker_handle_outcome maxAttempts backoffBase now row (false, err)).1

/-! app/poller/service.py -/

/-- The outer-loop error backoff of PollerService.run (service.py line 122):
min(300, 2 ** min(consecutive_errors, 6)) seconds. -/
def poller_error_backoff (consecutive_errors : ℕ) : ℕ :=
  min 300 (2 ^ min consecutive_errors 6)

/-! Concrete fixtures used to instantiate the theorems below. -/

def sampleInvoice : Invoice :=
  { id := 1, merchant_id := 7, publish_amount := 5 }

def sampleDB : DB := { invoices := [sampleInvoice] }

def sampleDeposit : DepositRaw :=
  { id := 4, tx_id := "tx-1", coin := some "USDT", network := none, amount := 5,
    status := 1, confirmTimes := some 2 }

def sampleInvoice2 : Invoice :=
  { id := 1, merchant_id := 2, publish_amount := 3 }

def sampleDB2 : DB := { invoices := [sampleInvoice2] }

def sampleDeposit2 : DepositRaw :=
  { id := 9, tx_id := "t", coin := some "USDT", network := none, amount := 4,
    status := 1, confirmTimes := some 2 }

def sampleReq : InvoiceCreateReq :=
  { merchant_id := 0, base_amount := 1, address := some "A" }

def sampleCollisionDB : DB :=
  { invoices :=
      [ { id := 101, merchant_id := 0, publish_amount := 1001/1000, address := some "A" },
        { id := 102, merchant_id := 0, publish_amount := 1002/1000, address := some "A" },
        { id := 103, merchant_id := 0, publish_amount := 1003/1000, address := some "A" },
        { id := 104, merchant_id := 0, publish_amount := 1004/1000, address := some "A" },
        { id := 105, merchant_id := 0, publish_amount := 1005/1000, address := some "A" } ] }

/-! Helper lemmas -/

theorem ratTruncZ_natCast (n : ℕ) : ratTruncZ (n : ℚ) = n := by
  simp [ratTruncZ]

theorem quantizeDown_eval (a : ℚ) (p : ℕ) (n : ℕ) (h : a * 10 ^ p = (n : ℚ)) :
    quantizeDown a p = (n : ℚ) / 10 ^ p := by
  simp [quantizeDown, h, ratTruncZ_natCast]

theorem network_precision_cases (network : Option String) :
    network_precision network = 6 ∨ network_precision network = 18 := by
  cases network with
  | none => left; rfl
  | some s =>
    unfold network_precision NETWORK_PRECISIONS DEFAULT_PRECISION
    simp only
    split_ifs <;> simp

theorem compute_delta_three (invoice_id : ℕ) :
    compute_delta invoice_id 3 = ((invoice_id % 1000 : ℕ) : ℚ) / 1000 := by
  unfold compute_delta invoice_index_from_uuid
  norm_num
  rw [show Int.toNat 3 = 3 from rfl]
  ring_nf

theorem quantizeDown_base_delta (m idx p : ℕ) (h3 : 3 ≤ p) :
    quantizeDown ((m : ℚ) / 10 ^ p + (idx : ℚ) / 1000) p
      = (m : ℚ) / 10 ^ p + (idx : ℚ) / 1000 := by
  have hp10 : (10 : ℚ) ^ p = 1000 * 10 ^ (p - 3) := by
    have : p = 3 + (p - 3) := by omega
    rw [this, pow_add]
    norm_num
  have h : ((m : ℚ) / 10 ^ p + (idx : ℚ) / 1000) * 10 ^ p
      = ((m + idx * 10 ^ (p - 3) : ℕ) : ℚ) := by
    push_cast
    rw [hp10]
    field_simp
    ring
  rw [quantizeDown_eval _ _ _ h]
  push_cast
  rw [hp10]
  field_simp
  ring

theorem adjusted_of_scaled (m invoice_id : ℕ) (network : Option String) :
    adjusted_amount_for_invoice ((m : ℚ) / 10 ^ network_precision network)
        invoice_id network 3
      = (m : ℚ) / 10 ^ network_precision network
        + ((invoice_id % 1000 : ℕ) : ℚ) / 1000 := by
  unfold adjusted_amount_for_invoice
  rw [compute_delta_three]
  have h3 : 3 ≤ network_precision network := by
    rcases network_precision_cases network with h | h <;> omega
  exact quantizeDown_base_delta m _ _ h3

/-! Claim C3 -/

/-- C3, counterexample: at base_amount 10, invoice id 999, network ERC20 and
k = 3 the adjusted amount is 10.999, so the difference from the base is
0.999, which is not below 10^(-3) + 10^(-6); the claimed bound fails. -/
theorem C3_counterexample :
    ¬ ((10 : ℚ) ≤ adjusted_amount_for_invoice 10 999 (some "ERC20") 3 ∧
       adjusted_amount_for_invoice 10 999 (some "ERC20") 3 - 10
         < (10 : ℚ) ^ (-(3 : ℤ)) + (10 : ℚ) ^ (-(6 : ℤ))) := by
  have hp : network_precision (some "ERC20") = 6 := by decide
  have h : adjusted_amount_for_invoice 10 999 (some "ERC20") 3 = 10999 / 1000 := by
    unfold adjusted_amount_for_invoice
    rw [compute_delta_three, hp,
        show ((999 % 1000 : ℕ) : ℚ) = 999 by norm_num,
        quantizeDown_eval _ _ 10999000 (by norm_num)]
    norm_num
  rw [h]
  norm_num

/-- C3 (amended): for every base amount that is representable at the network
precision (the precision the code assigns to the label: ERC20, ETH, TRC20,
TRON and unknown labels 6, BEP20 and BSC 18), every 128-bit invoice id and
k = 3, the adjusted amount is at least the base amount, exceeds it by
exactly (invoice_id mod 10^3)/10^3, and hence by less than 1 (not by less
than 10^(-3) plus one ulp, as claimed). -/
theorem C3_adjusted_amount_bounds (m invoice_id : ℕ) (network : Option String)
    (hm : 0 < m) (hid : invoice_id < 2 ^ 128) :
    (m : ℚ) / 10 ^ network_precision network
        ≤ adjusted_amount_for_invoice ((m : ℚ) / 10 ^ network_precision network)
            invoice_id network 3 ∧
    adjusted_amount_for_invoice ((m : ℚ) / 10 ^ network_precision network)
          invoice_id network 3
        - (m : ℚ) / 10 ^ network_precision network
      = ((invoice_id % 10 ^ 3 : ℕ) : ℚ) / 10 ^ 3 ∧
    adjusted_amount_for_invoice ((m : ℚ) / 10 ^ network_precision network)
          invoice_id network 3
        - (m : ℚ) / 10 ^ network_precision network < 1 := by
  rw [adjusted_of_scaled]
  refine ⟨le_add_of_nonneg_right (by positivity), by push_cast; ring_nf, ?_⟩
  have hlt : invoice_id % 1000 < 1000 := Nat.mod_lt _ (by norm_num)
  have : ((invoice_id % 1000 : ℕ) : ℚ) < 1000 := by exact_mod_cast hlt
  rw [add_sub_cancel_left]
  linarith

/-- Witness for C3_adjusted_amount_bounds at m = 10000000 (base 10.000000 at
ERC20 precision 6), invoice id 999. -/
theorem C3_adjusted_amount_bounds_witness :
    (0 < 10000000 ∧ 999 < 2 ^ 128) ∧
    ((10000000 : ℚ) / 10 ^ network_precision (some "ERC20")
        ≤ adjusted_amount_for_invoice
            ((10000000 : ℚ) / 10 ^ network_precision (some "ERC20"))
            999 (some "ERC20") 3 ∧
     adjusted_amount_for_invoice
            ((10000000 : ℚ) / 10 ^ network_precision (some "ERC20"))
            999 (some "ERC20") 3
          - (10000000 : ℚ) / 10 ^ network_precision (some "ERC20")
        = ((999 % 10 ^ 3 : ℕ) : ℚ) / 10 ^ 3 ∧
     adjusted_amount_for_invoice
            ((10000000 : ℚ) / 10 ^ network_precision (some "ERC20"))
            999 (some "ERC20") 3
          - (10000000 : ℚ) / 10 ^ network_precision (some "ERC20") < 1) :=
  ⟨⟨by decide, by decide⟩,
   C3_adjusted_amount_bounds 10000000 999 (some "ERC20") (by decide) (by decide)⟩

/-! Claim C9 -/

/-- C9, counterexample: the poller error backoff is min(300, 2^min(n, 6)),
which is at most 64; no number of consecutive errors makes it reach 300. -/
theorem C9_counterexample : ¬ ∃ n : ℕ, poller_error_backoff n = 300 := by
  rintro ⟨n, h⟩
  have h1 : 2 ^ min n 6 ≤ 2 ^ 6 :=
    Nat.pow_le_pow_right (by norm_num) (Nat.min_le_right _ _)
  have h2 : poller_error_backoff n ≤ 64 := by
    unfold poller_error_backoff
    omega
  omega

/-- C9 (amended): on a window-level exception the poller sleeps
2^min(n, 6) seconds after n consecutive errors: the backoff doubles on each
of the first six consecutive errors and is then capped at 64 seconds (the
literal 300 in min(300, 2^min(n, 6)) is never the smaller side, so the
backoff never reaches 300). -/
theorem C9_backoff_doubles_capped (n : ℕ) :
    poller_error_backoff n = 2 ^ min n 6 ∧
    poller_error_backoff n ≤ 64 ∧
    (n < 6 → poller_error_backoff (n + 1) = 2 * poller_error_backoff n) ∧
    (6 ≤ n → poller_error_backoff n = 64) := by
  have h1 : 2 ^ min n 6 ≤ 2 ^ 6 :=
    Nat.pow_le_pow_right (by norm_num) (Nat.min_le_right _ _)
  have he : poller_error_backoff n = 2 ^ min n 6 := by
    unfold poller_error_backoff
    omega
  refine ⟨he, by omega, ?_, ?_⟩
  · intro h6
    have ha : min (n + 1) 6 = n + 1 := by omega
    have hb : min n 6 = n := by omega
    unfold poller_error_backoff
    rw [ha, hb, pow_succ]
    have : 2 ^ n ≤ 2 ^ 6 := Nat.pow_le_pow_right (by norm_num) (by omega)
    omega
  · intro h6
    have : min n 6 = 6 := by omega
    rw [he, this]
    norm_num

/-- Witness for C9_backoff_doubles_capped: the backoff after 3 consecutive
errors doubles the backoff after 2, and after 100 errors it is 64. -/
theorem C9_backoff_doubles_capped_witness :
    (2 < 6 ∧ 6 ≤ 100) ∧
    poller_error_backoff (2 + 1) = 2 * poller_error_backoff 2 ∧
    poller_error_backoff 100 = 64 :=
  ⟨⟨by decide, by decide⟩,
   (C9_backoff_doubles_capped 2).2.2.1 (by decide),
   (C9_backoff_doubles_capped 100).2.2.2 (by decide)⟩

/-! Claim C5 -/

/-- C5: the matcher filter gate.  A deposit whose coin does not uppercase to
USDT is ignored with no write at all; a USDT deposit whose exchange status
is not 1 or whose confirmTimes is below the required confirmation count for
its network is left untouched (store unchanged, processed still false, so
no invoice, Payment, LedgerEntry or WebhookQueue write).  The required
counts are ERC20 12, BEP20 3, TRC20 20, and 2 for any label outside the
configured table (the table also maps the aliases ETH to 12 and TRON
to 20). -/
theorem C5_filter_gate :
    (∀ (db : DB) (dep : DepositRaw), strUpper (dep.coin.getD "") ≠ "USDT" →
        try_match_and_credit db dep = (false, db, dep)) ∧
    (∀ (db : DB) (dep : DepositRaw), strUpper (dep.coin.getD "") = "USDT" →
        (dep.status ≠ 1 ∨
          dep.confirmTimes.getD 0 < required_confirmations_for dep.network) →
        try_match_and_credit db dep = (false, db, dep)) ∧
    required_confirmations_for (some "ERC20") = 12 ∧
    required_confirmations_for (some "BEP20") = 3 ∧
    required_confirmations_for (some "TRC20") = 20 ∧
    required_confirmations_for none = 2 ∧
    (∀ s : String, DEFAULT_NETWORK_CONFIRMATIONS (strUpper s) = none →
        required_confirmations_for (some s) = 2) := by
  refine ⟨?_, ?_, by decide, by decide, by decide, by decide, ?_⟩
  · intro db dep h
    unfold try_match_and_credit
    rw [if_pos h]
  · intro db dep h h2
    unfold try_match_and_credit
    rw [if_neg (not_not_intro h), if_pos h2]
  · intro s hs
    unfold required_confirmations_for FALLBACK_REQUIRED_CONFIRMATIONS
    by_cases he : s = "" <;> simp [he, hs]

/-- Witness for C5_filter_gate: a BTC deposit is ignored, and a USDT deposit
with only 1 confirmation on an unknown network (required fallback 2) is
left unprocessed. -/
theorem C5_filter_gate_witness :
    (strUpper ((some "BTC").getD "") ≠ "USDT" ∧
     strUpper ((some "USDT").getD "") = "USDT" ∧
     ((1 : ℤ) ≠ 1 ∨ (some 1 : Option ℕ).getD 0 < required_confirmations_for none)) ∧
    try_match_and_credit {} { id := 1, tx_id := "a", coin := some "BTC", amount := 5 }
      = (false, {}, { id := 1, tx_id := "a", coin := some "BTC", amount := 5 }) ∧
    try_match_and_credit {}
        { id := 2, tx_id := "b", coin := some "USDT", amount := 5, status := 1,
          confirmTimes := some 1 }
      = (false, {},
         { id := 2, tx_id := "b", coin := some "USDT", amount := 5, status := 1,
           confirmTimes := some 1 }) :=
  ⟨⟨by decide, by decide, by decide⟩,
   C5_filter_gate.1 {} { id := 1, tx_id := "a", coin := some "BTC", amount := 5 }
     (by decide),
   C5_filter_gate.2.1 {}
     { id := 2, tx_id := "b", coin := some "USDT", amount := 5, status := 1,
       confirmTimes := some 1 }
     (by decide) (by decide)⟩

/-! Claim C7 -/

/-- C7: the dispatcher outcome handling.  A 2xx delivery sets status
success, increments attempts and clears last_error with the success metric
incremented; any other outcome increments attempts, records the failure
reason, increments the fail metric, and then either marks the row failed
(attempts at the maximum) or reschedules it pending with
next_attempt_at = now + min(600, base * 2^(attempts - 1)). -/
theorem C7_worker_outcome (maxAttempts backoffBase : ℕ) (now : ℤ)
    (row : WebhookRow) (outcome : Bool × Option String) :
    (outcome.1 = true →
        (worker_handle_outcome maxAttempts backoffBase now row outcome).1.status
            = "success" ∧
        (worker_handle_outcome maxAttempts backoffBase now row outcome).1.attempts
            = row.attempts + 1 ∧
        (worker_handle_outcome maxAttempts backoffBase now row outcome).1.last_error
            = none ∧
        (worker_handle_outcome maxAttempts backoffBase now row outcome).2 = (1, 0)) ∧
    (outcome.1 = false →
        (worker_handle_outcome maxAttempts backoffBase now row outcome).1.attempts
            = row.attempts + 1 ∧
        (worker_handle_outcome maxAttempts backoffBase now row outcome).1.last_error
            = outcome.2 ∧
        (worker_handle_outcome maxAttempts backoffBase now row outcome).2 = (0, 1) ∧
        (maxAttempts ≤ row.attempts + 1 →
            (worker_handle_outcome maxAttempts backoffBase now row outcome).1.status
              = "failed") ∧
        (row.attempts + 1 < maxAttempts →
            (worker_handle_outcome maxAttempts backoffBase now row outcome).1.status
                = "pending" ∧
            (worker_handle_outcome maxAttempts backoffBase now
                row outcome).1.next_attempt_at
              = some (now + min 600 (backoffBase * 2 ^ (row.attempts + 1 - 1))))) := by
  constructor
  · intro h
    simp [worker_handle_outcome, h]
  · intro h
    by_cases hm : maxAttempts ≤ row.attempts + 1
    · simp [worker_handle_outcome, h, hm]
    · simp [worker_handle_outcome, h, hm]

/-- Witness for C7_worker_outcome: a success outcome and a first failure
with the default limits (10 attempts, base 1 second). -/
theorem C7_worker_outcome_witness :
    ((true, (none : Option String)).1 = true ∧
     (false, some "status_500").1 = false) ∧
    (worker_handle_outcome 10 1 0
        { id := 0, payload := .jnull, headers := [], attempts := 0,
          last_error := none, status := "pending", idempotency_key := none,
          next_attempt_at := none } (true, none)).1.status = "success" ∧
    (worker_handle_outcome 10 1 0
        { id := 0, payload := .jnull, headers := [], attempts := 0,
          last_error := none, status := "pending", idempotency_key := none,
          next_attempt_at := none } (false, some "status_500")).1.attempts = 1 :=
  ⟨⟨rfl, rfl⟩,
   ((C7_worker_outcome 10 1 0
      { id := 0, payload := .jnull, headers := [], attempts := 0,
        last_error := none, status := "pending", idempotency_key := none,
        next_attempt_at := none } (true, none)).1 rfl).1,
   ((C7_worker_outcome 10 1 0
      { id := 0, payload := .jnull, headers := [], attempts := 0,
        last_error := none, status := "pending", idempotency_key := none,
        next_attempt_at := none } (false, some "status_500")).2 rfl).1⟩

/-! Claim C6 -/

/-- C6: deposit ingestion is idempotent in tx_id.  For a deposit record
carrying a fresh (non-empty) txId, the first ingest inserts one DepositRaw
row and reports inserted, the second ingest of the same record returns that
same row reporting not inserted and leaves the store unchanged, and exactly
one row with that tx_id exists. -/
theorem C6_ingest_idempotent (db : DB) (deposit : BinanceDeposit) (t : String)
    (ht : deposit.txId = some t) (hne : t ≠ "")
    (hfresh : ∀ r ∈ db.deposit_raw, r.tx_id ≠ t) :
    ∃ (rec : DepositRaw) (db2 : DB),
      ingest_deposit db deposit = .ok (rec, true, db2) ∧
      rec.tx_id = t ∧
      (db2.deposit_raw.filter (fun r => r.tx_id == t)).length = 1 ∧
      ingest_deposit db2 deposit = .ok (rec, false, db2) := by
  have hfind : db.deposit_raw.find? (fun r => r.tx_id == t) = none := by
    rw [List.find?_eq_none]
    intro r hr
    simpa using hfresh r hr
  refine ⟨ingested_record db deposit t,
          { db with deposit_raw := db.deposit_raw ++ [ingested_record db deposit t],
                    next_uuid := db.next_uuid + 1 }, ?_, rfl, ?_, ?_⟩
  · unfold ingest_deposit
    rw [ht]
    simp only [hne, if_false, hfind]
  · simp only [List.filter_append]
    rw [List.filter_eq_nil_iff.mpr (by intro r hr; simpa using hfresh r hr)]
    simp [ingested_record]
  · unfold ingest_deposit
    rw [ht]
    simp only [hne, if_false, List.find?_append, hfind]
    simp [ingested_record]

/-- Witness for C6_ingest_idempotent on an empty store and a concrete
deposit record. -/
theorem C6_ingest_idempotent_witness :
    (({} : BinanceDeposit).txId = none ∧
     ({ txId := some "tx-test-123", coin := some "USDT", amount := 10,
        status := some 1 } : BinanceDeposit).txId = some "tx-test-123" ∧
     "tx-test-123" ≠ "" ∧ (∀ r ∈ ({} : DB).deposit_raw, r.tx_id ≠ "tx-test-123")) ∧
    ∃ (rec : DepositRaw) (db2 : DB),
      ingest_deposit {}
          { txId := some "tx-test-123", coin := some "USDT", amount := 10,
            status := some 1 } = .ok (rec, true, db2) ∧
      rec.tx_id = "tx-test-123" ∧
      (db2.deposit_raw.filter (fun r => r.tx_id == "tx-test-123")).length = 1 ∧
      ingest_deposit db2
          { txId := some "tx-test-123", coin := some "USDT", amount := 10,
            status := some 1 } = .ok (rec, false, db2) :=
  ⟨⟨rfl, rfl, by decide, by simp⟩,
   C6_ingest_idempotent {}
     { txId := some "tx-test-123", coin := some "USDT", amount := 10,
       status := some 1 } "tx-test-123" rfl (by decide) (by simp)⟩

/-! Claim C8 -/

/-- C8: what the dispatcher actually POSTs.  Whenever deliver_webhook sends
a request, the body is the Python str() rendering of the stored payload
(NOT its JSON serialization), while the Content-Type header still says
application/json and the X-PS-Timestamp and X-PS-Signature headers are
computed over that same str() body.  The final conjunct exhibits the bug on
the payload shape the matcher enqueues: the str() body differs from the
JSON body (single quotes, capitalized False). -/
theorem C8_webhook_body_is_python_str :
    (∀ (hmac : String → String → String) (now : ℤ) (secret : String)
        (row : WebhookRow) (url body : String) (hdrs : List (String × String)),
        webhook_request hmac now secret row = some (url, body, hdrs) →
        body = pyStr row.payload ∧
        ("Content-Type", "application/json") ∈ hdrs ∧
        ("X-PS-Timestamp", toString now) ∈ hdrs ∧
        ("X-PS-Signature", sign_webhook hmac body (toString now) secret) ∈ hdrs) ∧
    pyStr (JVal.jobj [("status", .jstr "paid"),
                      ("metadata", .jobj [("used_amount_diff", .jbool false)])])
      ≠ json_dumps (JVal.jobj [("status", .jstr "paid"),
                      ("metadata", .jobj [("used_amount_diff", .jbool false)])]) := by
  constructor
  · intro hmac now secret row url body hdrs h
    unfold webhook_request at h
    cases hurl : (headerGet row.headers "x-ps-webhook-url").or
        (headerGet row.headers "webhook_url") with
    | none => rw [hurl] at h; exact absurd h (by simp)
    | some u =>
      rw [hurl] at h
      simp only [Option.some.injEq, Prod.mk.injEq] at h
      obtain ⟨hu, hb, hh⟩ := h
      subst hb
      subst hh
      refine ⟨rfl, ?_, ?_, ?_⟩ <;> simp [List.mem_append]
  · simp [pyStr, pyStrFields, json_dumps, jsonFields, joinSep]

/-- Witness for C8_webhook_body_is_python_str: a queue row that does carry a
webhook url header, with a constant HMAC primitive. -/
theorem C8_webhook_body_is_python_str_witness :
    (webhook_request (fun _ _ => "MAC") 0 "secret"
        { id := 0,
          payload := .jobj [("status", .jstr "paid"),
                            ("metadata", .jobj [("used_amount_diff", .jbool false)])],
          headers := [("x-ps-webhook-url", "https://merchant.example/hook")],
          attempts := 0, last_error := none, status := "pending",
          idempotency_key := none, next_attempt_at := none }
      = some ("https://merchant.example/hook",
          pyStr (.jobj [("status", .jstr "paid"),
                        ("metadata", .jobj [("used_amount_diff", .jbool false)])]),
          [("Content-Type", "application/json"),
           ("X-PS-Timestamp", toString (0 : ℤ)),
           ("X-PS-Signature",
            sign_webhook (fun _ _ => "MAC")
              (pyStr (.jobj [("status", .jstr "paid"),
                             ("metadata", .jobj [("used_amount_diff", .jbool false)])]))
              (toString (0 : ℤ)) "secret")])) ∧
    pyStr ((JVal.jobj [("status", .jstr "paid"),
                       ("metadata", .jobj [("used_amount_diff", .jbool false)])]))
      = pyStr ({ id := 0,
                 payload := JVal.jobj [("status", .jstr "paid"),
                            ("metadata", .jobj [("used_amount_diff", .jbool false)])],
                 headers := [("x-ps-webhook-url", "https://merchant.example/hook")],
                 attempts := 0, last_error := none, status := "pending",
                 idempotency_key := none, next_attempt_at := none } : WebhookRow).payload :=
  ⟨rfl,
   ((C8_webhook_body_is_python_str.1 (fun _ _ => "MAC") 0 "secret"
      { id := 0,
        payload := .jobj [("status", .jstr "paid"),
                          ("metadata", .jobj [("used_amount_diff", .jbool false)])],
        headers := [("x-ps-webhook-url", "https://merchant.example/hook")],
        attempts := 0, last_error := none, status := "pending",
        idempotency_key := none, next_attempt_at := none }
      "https://merchant.example/hook" _ _ rfl).1)⟩

/-! Claim C10 -/

/-- Iterating the failure path of the dispatcher marks the row failed once
the attempt count reaches the maximum. -/
theorem worker_retry_fails (maxAttempts backoffBase : ℕ) (now : ℤ)
    (err : Option String) :
    ∀ (k : ℕ) (row : WebhookRow), 1 ≤ k → row.attempts + k = maxAttempts →
    ((worker_retry_step maxAttempts backoffBase now err)^[k] row).status
      = "failed" := by
  intro k
  induction k with
  | zero => intro row h1 _; omega
  | succ n ih =>
    intro row _ h2
    rw [Function.iterate_succ_apply]
    rcases Nat.eq_zero_or_pos n with hn | hn
    · subst hn
      simp only [Function.iterate_zero, id]
      unfold worker_retry_step worker_handle_outcome
      have hge : maxAttempts ≤ row.attempts + 1 := by omega
      simp [hge]
    · have hlt : ¬ maxAttempts ≤ row.attempts + 1 := by omega
      have hstep : (worker_retry_step maxAttempts backoffBase now err row).attempts
          = row.attempts + 1 := by
        unfold worker_retry_step worker_handle_outcome
        simp [hlt]
      exact ih _ hn (by omega)

/-- C10: every WebhookQueue row the matcher enqueues has an empty headers
document; deliver_webhook requires a url under x-ps-webhook-url or
webhook_url in the row headers, so on such a row it fails with
no_webhook_url without invoking the HTTP POST at all (the result is the
same for every possible POST function); and a pending row that starts at
zero attempts is marked failed after maxAttempts such failing rounds. -/
theorem C10_matcher_webhooks_undeliverable :
    (∀ (db : DB) (inv : Invoice) (dep : DepositRaw) (amount : ℚ)
        (confirmations : ℕ) (flag : Bool),
        (_credit_invoice db inv dep amount confirmations flag).1.webhook_queue
          = db.webhook_queue ++ [credit_webhook_row inv dep amount confirmations flag] ∧
        (credit_webhook_row inv dep amount confirmations flag).headers = []) ∧
    (∀ (hmac : String → String → String)
        (post : String → String → List (String × String) → HttpResult)
        (now : ℤ) (secret : String) (row : WebhookRow), row.headers = [] →
        deliver_webhook hmac post now secret row = (false, some "no_webhook_url")) ∧
    (∀ (maxAttempts backoffBase : ℕ) (now : ℤ) (err : Option String)
        (row : WebhookRow), row.attempts = 0 → 1 ≤ maxAttempts →
        ((worker_retry_step maxAttempts backoffBase now err)^[maxAttempts] row).status
          = "failed") := by
  refine ⟨?_, ?_, ?_⟩
  · intro db inv dep amount confirmations flag
    exact ⟨rfl, rfl⟩
  · intro hmac post now secret row h
    unfold deliver_webhook webhook_request headerGet
    rw [h]
    rfl
  · intro maxAttempts backoffBase now err row h0 h1
    exact worker_retry_fails maxAttempts backoffBase now err maxAttempts row h1
      (by omega)

/-- Witness for C10_matcher_webhooks_undeliverable: a matcher-style row with
empty headers is refused delivery under an arbitrary concrete POST, and is
failed after the default 10 rounds. -/
theorem C10_matcher_webhooks_undeliverable_witness :
    (({ id := 3, payload := .jnull, headers := [], attempts := 0,
        last_error := none, status := "pending", idempotency_key := none,
        next_attempt_at := none } : WebhookRow).headers = [] ∧
     ({ id := 3, payload := .jnull, headers := [], attempts := 0,
        last_error := none, status := "pending", idempotency_key := none,
        next_attempt_at := none } : WebhookRow).attempts = 0 ∧ 1 ≤ 10) ∧
    deliver_webhook (fun _ _ => "MAC") (fun _ _ _ => .resp 200) 0 "secret"
        { id := 3, payload := .jnull, headers := [], attempts := 0,
          last_error := none, status := "pending", idempotency_key := none,
          next_attempt_at := none }
      = (false, some "no_webhook_url") ∧
    ((worker_retry_step 10 1 0 (some "no_webhook_url"))^[10]
        { id := 3, payload := .jnull, headers := [], attempts := 0,
          last_error := none, status := "pending", idempotency_key := none,
          next_attempt_at := none }).status = "failed" :=
  ⟨⟨rfl, rfl, by decide⟩,
   C10_matcher_webhooks_undeliverable.2.1 (fun _ _ => "MAC") (fun _ _ _ => .resp 200)
     0 "secret" _ rfl,
   C10_matcher_webhooks_undeliverable.2.2 10 1 0 (some "no_webhook_url")
     { id := 3, payload := .jnull, headers := [], attempts := 0,
       last_error := none, status := "pending", idempotency_key := none,
       next_attempt_at := none } rfl (by decide)⟩

/-! Lemmas about the invoice table -/

theorem lookupInvoice_id (db : DB) (x : ℕ) (r : Invoice)
    (h : lookupInvoice db x = some r) : r.id = x := by
  unfold lookupInvoice at h
  simpa using List.find?_some h

theorem lookupInvoice_updateStatus (db : DB) (x : ℕ) (st : String) (y : ℕ) :
    lookupInvoice (updateInvoiceStatus db x st) y
      = (lookupInvoice db y).map
          (fun i => if i.id = x then { i with status := st } else i) := by
  unfold lookupInvoice updateInvoiceStatus
  rw [List.find?_map]
  have hp : ((fun i : Invoice => i.id == y)
        ∘ (fun i => if i.id = x then { i with status := st } else i))
      = fun i : Invoice => i.id == y := by
    funext i
    by_cases h : i.id = x <;> simp [Function.comp, h]
  rw [hp]

theorem lookupInvoice_update_self (db : DB) (x : ℕ) (st : String) (r : Invoice)
    (h : lookupInvoice db x = some r) :
    lookupInvoice (updateInvoiceStatus db x st) x = some { r with status := st } := by
  rw [lookupInvoice_updateStatus, h]
  rw [Option.map_some']
  rw [if_pos (lookupInvoice_id db x r h)]

theorem lookupInvoice_update_of_ne (db : DB) (x : ℕ) (st : String) (y : ℕ)
    (h : y ≠ x) :
    lookupInvoice (updateInvoiceStatus db x st) y = lookupInvoice db y := by
  rw [lookupInvoice_updateStatus]
  cases hl : lookupInvoice db y with
  | none => rfl
  | some r =>
    rw [Option.map_some']
    rw [if_neg (by rw [lookupInvoice_id db y r hl]; exact h)]

theorem find?_id_of_nodup (l : List Invoice) (c : Invoice)
    (hn : (l.map Invoice.id).Nodup) (hc : c ∈ l) :
    l.find? (fun i => i.id == c.id) = some c := by
  induction l with
  | nil => cases hc
  | cons a t ih =>
    rw [List.map_cons, List.nodup_cons] at hn
    rw [List.find?_cons]
    rcases List.mem_cons.mp hc with h | h
    · subst h
      simp
    · have hne : (a.id == c.id) = false := by
        simp only [beq_eq_false_iff_ne, ne_eq]
        intro he
        exact hn.1 (he ▸ List.mem_map.mpr ⟨c, h, rfl⟩)
      rw [hne]
      exact ih hn.2 h

theorem lookupInvoice_of_mem (db : DB) (c : Invoice)
    (hn : (db.invoices.map Invoice.id).Nodup) (hc : c ∈ db.invoices) :
    lookupInvoice db c.id = some c :=
  find?_id_of_nodup db.invoices c hn hc

theorem foldl_updateStatus_tables (ms : List Invoice) (st : String) :
    ∀ db : DB,
      (ms.foldl (fun acc i => updateInvoiceStatus acc i.id st) db).payments
          = db.payments ∧
      (ms.foldl (fun acc i => updateInvoiceStatus acc i.id st) db).ledger_entries
          = db.ledger_entries ∧
      (ms.foldl (fun acc i => updateInvoiceStatus acc i.id st) db).webhook_queue
          = db.webhook_queue ∧
      (ms.foldl (fun acc i => updateInvoiceStatus acc i.id st) db).audit_logs
          = db.audit_logs ∧
      (ms.foldl (fun acc i => updateInvoiceStatus acc i.id st) db).system_events
          = db.system_events ∧
      (ms.foldl (fun acc i => updateInvoiceStatus acc i.id st) db).met_collisions
          = db.met_collisions := by
  induction ms with
  | nil => intro db; exact ⟨rfl, rfl, rfl, rfl, rfl, rfl⟩
  | cons a t ih =>
    intro db
    rw [List.foldl_cons]
    exact ih _

theorem lookupInvoice_foldl_not_mem (ms : List Invoice) (st : String) (x : ℕ) :
    ∀ db : DB, (∀ m ∈ ms, m.id ≠ x) →
    lookupInvoice (ms.foldl (fun acc i => updateInvoiceStatus acc i.id st) db) x
      = lookupInvoice db x := by
  induction ms with
  | nil => intro db _; rfl
  | cons a t ih =>
    intro db h
    rw [List.foldl_cons, ih _ (fun m hm => h m (List.mem_cons_of_mem a hm)),
        lookupInvoice_update_of_ne db a.id st x
          (fun he => (h a (List.mem_cons_self a t)) he.symm)]

theorem lookupInvoice_foldl_mem (st : String) (ms : List Invoice) :
    ∀ db : DB,
    (ms.map Invoice.id).Nodup →
    (∀ m ∈ ms, lookupInvoice db m.id = some m) →
    ∀ m ∈ ms,
      lookupInvoice (ms.foldl (fun acc i => updateInvoiceStatus acc i.id st) db) m.id
        = some { m with status := st } := by
  induction ms with
  | nil => intro db _ _ m hm; cases hm
  | cons a t ih =>
    intro db hn h m hm
    rw [List.map_cons, List.nodup_cons] at hn
    rw [List.foldl_cons]
    rcases List.mem_cons.mp hm with hma | hmt
    · subst hma
      have hnot : ∀ x ∈ t, x.id ≠ m.id := by
        intro x hx he
        exact hn.1 (he ▸ List.mem_map.mpr ⟨x, hx, rfl⟩)
      rw [lookupInvoice_foldl_not_mem t st m.id _ hnot]
      exact lookupInvoice_update_self db m.id st m (h m (List.mem_cons_self _ _))
    · apply ih (updateInvoiceStatus db a.id st) hn.2 _ m hmt
      intro x hx
      rw [lookupInvoice_update_of_ne db a.id st x.id
            (fun he => hn.1 (he ▸ List.mem_map.mpr ⟨x, hx, rfl⟩))]
      exact h x (List.mem_cons_of_mem _ hx)

theorem lookupInvoice_invoices_eq (db1 db2 : DB) (h : db1.invoices = db2.invoices)
    (x : ℕ) : lookupInvoice db1 x = lookupInvoice db2 x := by
  unfold lookupInvoice
  rw [h]

theorem matcher_candidates_mem (db : DB) (dep : DepositRaw) (c : Invoice)
    (h : c ∈ matcher_candidates db dep) :
    c ∈ db.invoices ∧ c.status = "pending" := by
  unfold matcher_candidates at h
  have h2 := List.mem_of_mem_take h
  have h3 := List.mem_filter.mp h2
  refine ⟨h3.1, ?_⟩
  have h4 := h3.2
  simp only [Bool.and_eq_true, decide_eq_true_eq] at h4
  exact h4.1.2

theorem amount_diff_matches_mem (db : DB) (dep : DepositRaw) (m : Invoice)
    (h : m ∈ amount_diff_matches db dep) : m ∈ matcher_candidates db dep :=
  (List.mem_filter.mp h).1

theorem amount_diff_matches_nodup (db : DB) (dep : DepositRaw)
    (hn : (db.invoices.map Invoice.id).Nodup) :
    ((amount_diff_matches db dep).map Invoice.id).Nodup := by
  have hsub : (amount_diff_matches db dep).Sublist db.invoices :=
    (List.filter_sublist _).trans
      ((List.take_sublist _ _).trans (List.filter_sublist _))
  exact List.Nodup.sublist (hsub.map Invoice.id) hn

theorem exact_match_pass_eq_none (db : DB) (dep : DepositRaw) (amount : ℚ)
    (confirmations : ℕ) (cs : List Invoice)
    (h : ∀ c ∈ cs, lookupInvoice db c.id = some c ∧ c.publish_amount ≠ amount) :
    exact_match_pass db dep amount confirmations cs = none := by
  induction cs with
  | nil => rfl
  | cons c rest ih =>
    have hrec : exact_match_pass db dep amount confirmations rest = none :=
      ih (fun x hx => h x (List.mem_cons_of_mem _ hx))
    unfold exact_match_pass
    simp only [(h c (List.mem_cons_self _ _)).1]
    by_cases hs : c.status ≠ "pending"
    · rw [if_pos hs]
      exact hrec
    · rw [if_neg hs, if_neg (h c (List.mem_cons_self _ _)).2]
      exact hrec

/-! Claim C2 -/

/-- C2: the amount-diff fallback of the matcher, assuming the gate passes
and no candidate matches the deposit amount exactly.  With M the set of
pending candidates whose adjusted amount equals the deposit amount: a
singleton M is credited with used_amount_diff true and the invoice goes to
paid with the deposit marked processed; with two or more members every
member of M goes to pending_manual_resolution, exactly one AuditLog and one
SystemEvent are appended, the deposit row is returned unchanged (processed
stays false), the collisions counter is incremented and no Payment or
WebhookQueue row is written; an empty M changes nothing at all. -/
theorem C2_amount_diff_fallback (db : DB) (dep : DepositRaw)
    (hn : (db.invoices.map Invoice.id).Nodup)
    (hcoin : strUpper (dep.coin.getD "") = "USDT")
    (hst : dep.status = 1)
    (hconf : required_confirmations_for dep.network ≤ dep.confirmTimes.getD 0)
    (hnoexact : ∀ c ∈ matcher_candidates db dep, c.publish_amount ≠ dep.amount) :
    (∀ m, amount_diff_matches db dep = [m] →
        (try_match_and_credit db dep).1 = true ∧
        (try_match_and_credit db dep).2.1.payments
          = db.payments ++ [credit_payment db m dep dep.amount true] ∧
        (credit_payment db m dep dep.amount true).used_amount_diff = true ∧
        (credit_payment db m dep dep.amount true).invoice_id = m.id ∧
        (credit_payment db m dep dep.amount true).tx_id = dep.tx_id ∧
        lookupInvoice (try_match_and_credit db dep).2.1 m.id
          = some { m with status := "paid" } ∧
        (try_match_and_credit db dep).2.2 = { dep with processed := true }) ∧
    (2 ≤ (amount_diff_matches db dep).length →
        (try_match_and_credit db dep).1 = false ∧
        (try_match_and_credit db dep).2.2 = dep ∧
        (∀ m ∈ amount_diff_matches db dep,
            lookupInvoice (try_match_and_credit db dep).2.1 m.id
              = some { m with status := "pending_manual_resolution" }) ∧
        (try_match_and_credit db dep).2.1.audit_logs
          = db.audit_logs ++ [collision_audit dep
              (amount_diff_matches db dep)] ∧
        (try_match_and_credit db dep).2.1.system_events
          = db.system_events ++ [collision_event dep
              (amount_diff_matches db dep)] ∧
        (try_match_and_credit db dep).2.1.payments = db.payments ∧
        (try_match_and_credit db dep).2.1.webhook_queue = db.webhook_queue ∧
        (try_match_and_credit db dep).2.1.met_collisions
          = db.met_collisions + 1) ∧
    (amount_diff_matches db dep = [] →
        try_match_and_credit db dep = (false, db, dep)) := by
  have hg1 : ¬ (strUpper (dep.coin.getD "") ≠ "USDT") := not_not_intro hcoin
  have hg2 : ¬ (dep.status ≠ 1 ∨
      dep.confirmTimes.getD 0 < required_confirmations_for dep.network) :=
    not_or.mpr ⟨not_not_intro hst, Nat.not_lt.mpr hconf⟩
  have hcand : ∀ c ∈ matcher_candidates db dep, lookupInvoice db c.id = some c :=
    fun c hc => lookupInvoice_of_mem db c hn (matcher_candidates_mem db dep c hc).1
  have hpass : exact_match_pass db dep dep.amount (dep.confirmTimes.getD 0)
      (matcher_candidates db dep) = none :=
    exact_match_pass_eq_none db dep dep.amount (dep.confirmTimes.getD 0)
      (matcher_candidates db dep) (fun c hc => ⟨hcand c hc, hnoexact c hc⟩)
  by_cases hemp : (matcher_candidates db dep).isEmpty
  · have hM : amount_diff_matches db dep = [] := by
      unfold amount_diff_matches
      rw [List.isEmpty_iff.mp hemp]
      rfl
    have hres : try_match_and_credit db dep = (false, db, dep) := by
      simp only [try_match_and_credit]
      rw [if_neg hg1, if_neg hg2, if_pos hemp]
    refine ⟨?_, ?_, fun _ => hres⟩
    · intro m hm
      rw [hM] at hm
      exact absurd hm (by simp)
    · intro h2
      rw [hM] at h2
      simp at h2
  · rcases hM : amount_diff_matches db dep with _ | ⟨m1, _ | ⟨m2, rest⟩⟩
    · -- no amount-diff match
      have hres : try_match_and_credit db dep = (false, db, dep) := by
        simp only [try_match_and_credit]
        rw [if_neg hg1, if_neg hg2, if_neg hemp, hpass]
        simp only [after_exact_pass]
        rw [hM]
        simp only [amount_diff_dispatch]
      refine ⟨?_, ?_, fun _ => hres⟩
      · intro m hm
        exact absurd hm (by simp)
      · intro h2
        simp at h2
    · -- singleton M: credit with the amount-diff flag
      have hm1M : m1 ∈ amount_diff_matches db dep := by
        rw [hM]
        exact List.mem_singleton.mpr rfl
      have hm1cand := amount_diff_matches_mem db dep m1 hm1M
      have hm1st := (matcher_candidates_mem db dep m1 hm1cand).2
      have hlook : lookupInvoice db m1.id = some m1 := hcand m1 hm1cand
      have hres : try_match_and_credit db dep =
          (true,
           { (_credit_invoice db m1 dep dep.amount (dep.confirmTimes.getD 0) true).1
             with met_deposits_processed :=
               (_credit_invoice db m1 dep dep.amount
                   (dep.confirmTimes.getD 0) true).1.met_deposits_processed + 1 },
           (_credit_invoice db m1 dep dep.amount (dep.confirmTimes.getD 0) true).2) := by
        simp only [try_match_and_credit]
        rw [if_neg hg1, if_neg hg2, if_neg hemp, hpass]
        simp only [after_exact_pass]
        rw [hM]
        simp only [amount_diff_dispatch, hlook]
        rw [if_neg (not_not_intro hm1st)]
      refine ⟨?_, ?_, ?_⟩
      · intro m hm
        have hm1 : m1 = m := by
          injection hm
        subst hm1
        rw [hres]
        refine ⟨rfl, rfl, rfl, rfl, rfl, ?_, rfl⟩
        exact (lookupInvoice_invoices_eq _ _ rfl m1.id).trans
          (lookupInvoice_update_self _ m1.id "paid" m1 hlook)
      · intro h2
        simp at h2
      · intro h0
        exact absurd h0 (by simp)
    · -- collision: two or more members
      have hnodupM : ((amount_diff_matches db dep).map Invoice.id).Nodup :=
        amount_diff_matches_nodup db dep hn
      rw [hM] at hnodupM
      have hlookM : ∀ m ∈ m1 :: m2 :: rest, lookupInvoice db m.id = some m := by
        intro m hm
        exact hcand m (amount_diff_matches_mem db dep m (by rw [hM]; exact hm))
      have hres : try_match_and_credit db dep =
          (false,
           { (m1 :: m2 :: rest).foldl
               (fun acc i => updateInvoiceStatus acc i.id "pending_manual_resolution") db
             with
             audit_logs :=
               ((m1 :: m2 :: rest).foldl
                 (fun acc i => updateInvoiceStatus acc i.id "pending_manual_resolution")
                 db).audit_logs ++ [collision_audit dep (m1 :: m2 :: rest)],
             system_events :=
               ((m1 :: m2 :: rest).foldl
                 (fun acc i => updateInvoiceStatus acc i.id "pending_manual_resolution")
                 db).system_events ++ [collision_event dep (m1 :: m2 :: rest)],
             met_collisions :=
               ((m1 :: m2 :: rest).foldl
                 (fun acc i => updateInvoiceStatus acc i.id "pending_manual_resolution")
                 db).met_collisions + 1 },
           dep) := by
        simp only [try_match_and_credit]
        rw [if_neg hg1, if_neg hg2, if_neg hemp, hpass]
        simp only [after_exact_pass]
        rw [hM]
        simp only [amount_diff_dispatch]
      have htables := foldl_updateStatus_tables (m1 :: m2 :: rest)
        "pending_manual_resolution" db
      refine ⟨?_, ?_, ?_⟩
      · intro m hm
        exact absurd hm (by simp)
      · intro _
        rw [hres]
        refine ⟨rfl, rfl, ?_, ?_, ?_, ?_, ?_, ?_⟩
        · intro m hm
          exact (lookupInvoice_invoices_eq _ _ rfl m.id).trans
            (lookupInvoice_foldl_mem "pending_manual_resolution"
              (m1 :: m2 :: rest) db hnodupM hlookM m hm)
        · show _ ++ _ = _ ++ _
          rw [htables.2.2.2.1]
        · show _ ++ _ = _ ++ _
          rw [htables.2.2.2.2.1]
        · exact htables.1
        · exact htables.2.2.1
        · show _ + 1 = _ + 1
          rw [htables.2.2.2.2.2]
      · intro h0
        exact absurd h0 (by simp)

/-- C1: the crediting step performs exactly the five writes, together: one
Payment with the deposit tx_id and amount, one LedgerEntry crediting the
invoice merchant with +amount in USDT whose reference_id is the payment
primary key, the invoice status set to paid, deposit_raw.processed set to
true, and one WebhookQueue row with status pending; no other table is
touched, and a transaction that aborts leaves the store exactly as it
was. -/
theorem C1_credit_five_writes (db : DB) (inv : Invoice) (dep : DepositRaw)
    (amount : ℚ) (confirmations : ℕ) (flag : Bool)
    (hinv : lookupInvoice db inv.id = some inv) :
    ((_credit_invoice db inv dep amount confirmations flag).1.payments
        = db.payments ++ [credit_payment db inv dep amount flag] ∧
     (credit_payment db inv dep amount flag).tx_id = dep.tx_id ∧
     (credit_payment db inv dep amount flag).amount = amount ∧
     (credit_payment db inv dep amount flag).invoice_id = inv.id) ∧
    ((_credit_invoice db inv dep amount confirmations flag).1.ledger_entries
        = db.ledger_entries ++ [credit_ledger db inv dep amount confirmations] ∧
     (credit_ledger db inv dep amount confirmations).merchant_id = inv.merchant_id ∧
     (credit_ledger db inv dep amount confirmations).change_amount = amount ∧
     (credit_ledger db inv dep amount confirmations).currency = "USDT" ∧
     (credit_ledger db inv dep amount confirmations).reference_id
        = (credit_payment db inv dep amount flag).id) ∧
    lookupInvoice (_credit_invoice db inv dep amount confirmations flag).1 inv.id
        = some { inv with status := "paid" } ∧
    (_credit_invoice db inv dep amount confirmations flag).2
        = { dep with processed := true } ∧
    ((_credit_invoice db inv dep amount confirmations flag).1.webhook_queue
        = db.webhook_queue
          ++ [credit_webhook_row inv dep amount confirmations flag] ∧
     (credit_webhook_row inv dep amount confirmations flag).status = "pending") ∧
    ((_credit_invoice db inv dep amount confirmations flag).1.audit_logs
        = db.audit_logs ∧
     (_credit_invoice db inv dep amount confirmations flag).1.system_events
        = db.system_events ∧
     (_credit_invoice db inv dep amount confirmations flag).1.deposit_raw
        = db.deposit_raw) ∧
    (∀ (f : DB → Except String DB) (e : String),
        f db = .error e → runTxn db f = db) := by
  refine ⟨⟨rfl, rfl, rfl, rfl⟩, ⟨rfl, rfl, rfl, rfl, rfl⟩, ?_, rfl, ⟨rfl, rfl⟩,
          ⟨rfl, rfl, rfl⟩, ?_⟩
  · exact lookupInvoice_update_self _ inv.id "paid" inv hinv
  · intro f e h
    unfold runTxn
    rw [h]

/-- Witness for C1_credit_five_writes on the sample store. -/
theorem C1_credit_five_writes_witness :
    lookupInvoice sampleDB sampleInvoice.id = some sampleInvoice ∧
    (((_credit_invoice sampleDB sampleInvoice sampleDeposit 5 12 false).1.payments
        = sampleDB.payments ++ [credit_payment sampleDB sampleInvoice sampleDeposit 5 false] ∧
      (credit_payment sampleDB sampleInvoice sampleDeposit 5 false).tx_id
        = sampleDeposit.tx_id ∧
      (credit_payment sampleDB sampleInvoice sampleDeposit 5 false).amount = 5 ∧
      (credit_payment sampleDB sampleInvoice sampleDeposit 5 false).invoice_id
        = sampleInvoice.id) ∧
     ((_credit_invoice sampleDB sampleInvoice sampleDeposit 5 12 false).1.ledger_entries
        = sampleDB.ledger_entries
          ++ [credit_ledger sampleDB sampleInvoice sampleDeposit 5 12] ∧
      (credit_ledger sampleDB sampleInvoice sampleDeposit 5 12).merchant_id
        = sampleInvoice.merchant_id ∧
      (credit_ledger sampleDB sampleInvoice sampleDeposit 5 12).change_amount = 5 ∧
      (credit_ledger sampleDB sampleInvoice sampleDeposit 5 12).currency = "USDT" ∧
      (credit_ledger sampleDB sampleInvoice sampleDeposit 5 12).reference_id
        = (credit_payment sampleDB sampleInvoice sampleDeposit 5 false).id) ∧
     lookupInvoice (_credit_invoice sampleDB sampleInvoice sampleDeposit 5 12 false).1
         sampleInvoice.id
        = some { sampleInvoice with status := "paid" } ∧
     (_credit_invoice sampleDB sampleInvoice sampleDeposit 5 12 false).2
        = { sampleDeposit with processed := true } ∧
     ((_credit_invoice sampleDB sampleInvoice sampleDeposit 5 12 false).1.webhook_queue
        = sampleDB.webhook_queue
          ++ [credit_webhook_row sampleInvoice sampleDeposit 5 12 false] ∧
      (credit_webhook_row sampleInvoice sampleDeposit 5 12 false).status = "pending") ∧
     ((_credit_invoice sampleDB sampleInvoice sampleDeposit 5 12 false).1.audit_logs
        = sampleDB.audit_logs ∧
      (_credit_invoice sampleDB sampleInvoice sampleDeposit 5 12 false).1.system_events
        = sampleDB.system_events ∧
      (_credit_invoice sampleDB sampleInvoice sampleDeposit 5 12 false).1.deposit_raw
        = sampleDB.deposit_raw) ∧
     (∀ (f : DB → Except String DB) (e : String),
        f sampleDB = .error e → runTxn sampleDB f = sampleDB)) :=
  ⟨rfl, C1_credit_five_writes sampleDB sampleInvoice sampleDeposit 5 12 false rfl⟩

/-- Witness for C2_amount_diff_fallback: a store with a single pending
invoice at the deposit address whose published amount does not equal the
deposit amount, so the exact pass finds nothing. -/
theorem C2_amount_diff_fallback_witness :
    ((sampleDB2.invoices.map Invoice.id).Nodup ∧
     strUpper (sampleDeposit2.coin.getD "") = "USDT" ∧
     sampleDeposit2.status = 1 ∧
     required_confirmations_for sampleDeposit2.network
       ≤ sampleDeposit2.confirmTimes.getD 0 ∧
     (∀ c ∈ matcher_candidates sampleDB2 sampleDeposit2,
        c.publish_amount ≠ sampleDeposit2.amount)) ∧
    ((∀ m, amount_diff_matches sampleDB2 sampleDeposit2 = [m] →
        (try_match_and_credit sampleDB2 sampleDeposit2).1 = true ∧
        (try_match_and_credit sampleDB2 sampleDeposit2).2.1.payments
          = sampleDB2.payments
            ++ [credit_payment sampleDB2 m sampleDeposit2 sampleDeposit2.amount true] ∧
        (credit_payment sampleDB2 m sampleDeposit2 sampleDeposit2.amount
            true).used_amount_diff = true ∧
        (credit_payment sampleDB2 m sampleDeposit2 sampleDeposit2.amount
            true).invoice_id = m.id ∧
        (credit_payment sampleDB2 m sampleDeposit2 sampleDeposit2.amount
            true).tx_id = sampleDeposit2.tx_id ∧
        lookupInvoice (try_match_and_credit sampleDB2 sampleDeposit2).2.1 m.id
          = some { m with status := "paid" } ∧
        (try_match_and_credit sampleDB2 sampleDeposit2).2.2
          = { sampleDeposit2 with processed := true }) ∧
     (2 ≤ (amount_diff_matches sampleDB2 sampleDeposit2).length →
        (try_match_and_credit sampleDB2 sampleDeposit2).1 = false ∧
        (try_match_and_credit sampleDB2 sampleDeposit2).2.2 = sampleDeposit2 ∧
        (∀ m ∈ amount_diff_matches sampleDB2 sampleDeposit2,
            lookupInvoice (try_match_and_credit sampleDB2 sampleDeposit2).2.1 m.id
              = some { m with status := "pending_manual_resolution" }) ∧
        (try_match_and_credit sampleDB2 sampleDeposit2).2.1.audit_logs
          = sampleDB2.audit_logs ++ [collision_audit sampleDeposit2
              (amount_diff_matches sampleDB2 sampleDeposit2)] ∧
        (try_match_and_credit sampleDB2 sampleDeposit2).2.1.system_events
          = sampleDB2.system_events ++ [collision_event sampleDeposit2
              (amount_diff_matches sampleDB2 sampleDeposit2)] ∧
        (try_match_and_credit sampleDB2 sampleDeposit2).2.1.payments
          = sampleDB2.payments ∧
        (try_match_and_credit sampleDB2 sampleDeposit2).2.1.webhook_queue
          = sampleDB2.webhook_queue ∧
        (try_match_and_credit sampleDB2 sampleDeposit2).2.1.met_collisions
          = sampleDB2.met_collisions + 1) ∧
     (amount_diff_matches sampleDB2 sampleDeposit2 = [] →
        try_match_and_credit sampleDB2 sampleDeposit2
          = (false, sampleDB2, sampleDeposit2))) :=
  ⟨⟨by simp [sampleDB2, sampleInvoice2], by decide, by decide, by decide,
    by
      intro c hc
      simp [matcher_candidates, sampleDB2, sampleDeposit2, sampleInvoice2] at hc
      subst hc
      norm_num [sampleInvoice2, sampleDeposit2]⟩,
   C2_amount_diff_fallback sampleDB2 sampleDeposit2
     (by simp [sampleDB2, sampleInvoice2]) (by decide) (by decide) (by decide)
     (by
       intro c hc
       simp [matcher_candidates, sampleDB2, sampleDeposit2, sampleInvoice2] at hc
       subst hc
       norm_num [sampleInvoice2, sampleDeposit2])⟩

/-! Claim C4 -/

theorem create_invoice_attempts_none (db : DB) (req : InvoiceCreateReq) (u0 : ℕ) :
    ∀ (n a : ℕ),
    (∀ j, j < n → violates_unique db (invoice_candidate req u0 (a + j)) = true) →
    create_invoice_attempts db req u0 a n = none := by
  intro n
  induction n with
  | zero => intro a _; rfl
  | succ k ih =>
    intro a h
    have h0 : violates_unique db (invoice_candidate req u0 a) = true := by
      simpa using h 0 (by omega)
    simp only [create_invoice_attempts, h0, if_true]
    refine ih (a + 1) ?_
    intro j hj
    have h2 := h (j + 1) (by omega)
    have he : a + (j + 1) = a + 1 + j := by omega
    rw [he] at h2
    exact h2

/-- C4: when all MAX_ATTEMPTS candidate ids collide on the partial unique
index and the manual-resolution insert itself goes through, create_invoice
persists the manual-resolution invoice (publish_amount equal to the base
amount) together with exactly one AuditLog and one SystemEvent, but the
request surfaces HTTP 500, not the 409 the spec promises: the
HTTPException(409) is raised inside the same try block whose blanket
except Exception converts every exception into HTTPException(500). -/
theorem C4_collision_exhaustion_returns_500 (db : DB) (req : InvoiceCreateReq)
    (u0 : ℕ)
    (hall : ∀ a, a < MAX_INVOICE_CREATION_ATTEMPTS →
        violates_unique db (invoice_candidate req u0 a) = true)
    (hfree : violates_unique db (manual_resolution_invoice db req) = false) :
    (create_invoice db req u0).1
      = .error { status_code := 500, detail := "invoice_creation_failed" } ∧
    (create_invoice db req u0).1
      ≠ .error { status_code := 409, detail := "invoice_creation_collision" } ∧
    (create_invoice db req u0).2.invoices
      = db.invoices ++ [manual_resolution_invoice db req] ∧
    (manual_resolution_invoice db req).status = "pending_manual_resolution" ∧
    (manual_resolution_invoice db req).publish_amount = req.base_amount ∧
    (create_invoice db req u0).2.audit_logs
      = db.audit_logs ++ [collision_exhausted_audit req] ∧
    (create_invoice db req u0).2.system_events
      = db.system_events ++ [collision_exhausted_event req] := by
  have hnone : create_invoice_attempts db req u0 0 MAX_INVOICE_CREATION_ATTEMPTS
      = none :=
    create_invoice_attempts_none db req u0 MAX_INVOICE_CREATION_ATTEMPTS 0
      (fun j hj => by simpa using hall j hj)
  have hred : create_invoice db req u0
      = (.error { status_code := 500, detail := "invoice_creation_failed" },
         { db with
             invoices := db.invoices ++ [manual_resolution_invoice db req],
             audit_logs := db.audit_logs ++ [collision_exhausted_audit req],
             system_events := db.system_events ++ [collision_exhausted_event req],
             next_uuid := db.next_uuid + 1 }) := by
    simp only [create_invoice, hnone, hfree]
    simp
  rw [hred]
  refine ⟨rfl, by simp, rfl, rfl, rfl, rfl, rfl⟩

theorem adjusted_one_none (did : ℕ) :
    adjusted_amount_for_invoice 1 did none 3
      = 1 + ((did % 1000 : ℕ) : ℚ) / 1000 := by
  have h := adjusted_of_scaled 1000000 did none
  simp only [network_precision, DEFAULT_PRECISION] at h
  norm_num at h
  exact h

/-- Witness for C4_collision_exhaustion_returns_500: a merchant with five
pending invoices at the same address occupying the published amounts of all
five candidate ids drawn from base uuid 1. -/
theorem C4_collision_exhaustion_returns_500_witness :
    ((∀ a, a < MAX_INVOICE_CREATION_ATTEMPTS →
        violates_unique sampleCollisionDB (invoice_candidate sampleReq 1 a) = true) ∧
     violates_unique sampleCollisionDB
        (manual_resolution_invoice sampleCollisionDB sampleReq) = false) ∧
    ((create_invoice sampleCollisionDB sampleReq 1).1
      = .error { status_code := 500, detail := "invoice_creation_failed" } ∧
     (create_invoice sampleCollisionDB sampleReq 1).1
      ≠ .error { status_code := 409, detail := "invoice_creation_collision" } ∧
     (create_invoice sampleCollisionDB sampleReq 1).2.invoices
      = sampleCollisionDB.invoices
        ++ [manual_resolution_invoice sampleCollisionDB sampleReq] ∧
     (manual_resolution_invoice sampleCollisionDB sampleReq).status
      = "pending_manual_resolution" ∧
     (manual_resolution_invoice sampleCollisionDB sampleReq).publish_amount
      = sampleReq.base_amount ∧
     (create_invoice sampleCollisionDB sampleReq 1).2.audit_logs
      = sampleCollisionDB.audit_logs ++ [collision_exhausted_audit sampleReq] ∧
     (create_invoice sampleCollisionDB sampleReq 1).2.system_events
      = sampleCollisionDB.system_events
        ++ [collision_exhausted_event sampleReq]) :=
  ⟨⟨by
      intro a ha
      have ha5 : a < 5 := ha
      interval_cases a <;>
        · simp only [violates_unique, invoice_candidate, sampleCollisionDB, sampleReq,
            AMOUNT_DIFF_K, List.any_cons, List.any_nil, Bool.or_eq_true,
            Bool.and_eq_true, decide_eq_true_eq]
          refine ⟨by decide, ?_⟩
          norm_num [adjusted_one_none]
          decide,
    by
      rw [Bool.eq_false_iff]
      intro hcontra
      simp only [violates_unique, manual_resolution_invoice, sampleCollisionDB,
        sampleReq, List.any_cons, List.any_nil, Bool.or_eq_true, Bool.and_eq_true,
        decide_eq_true_eq] at hcontra
      norm_num at hcontra⟩,
   C4_collision_exhaustion_returns_500 sampleCollisionDB sampleReq 1
     (by
       intro a ha
       have ha5 : a < 5 := ha
       interval_cases a <;>
         · simp only [violates_unique, invoice_candidate, sampleCollisionDB, sampleReq,
             AMOUNT_DIFF_K, List.any_cons, List.any_nil, Bool.or_eq_true,
             Bool.and_eq_true, decide_eq_true_eq]
           refine ⟨by decide, ?_⟩
           norm_num [adjusted_one_none]
           decide)
     (by
       rw [Bool.eq_false_iff]
       intro hcontra
       simp only [violates_unique, manual_resolution_invoice, sampleCollisionDB,
         sampleReq, List.any_cons, List.any_nil, Bool.or_eq_true, Bool.and_eq_true,
         decide_eq_true_eq] at hcontra
       norm_num at hcontra)⟩

end Problemsolver
